import Mathlib

/-!
Shallow embedding of `src/app_vc.py` (seed-vc gradio front-end).

The script parses four command-line flags, loads a voice-conversion model
either from a local checkpoint path or from the fixed HuggingFace artifact
"Plachta/Seed-VC", wires a gradio UI to a placeholder `voice_conversion`
callback, and launches an HTTP server on `int(os.environ.get("PORT", 8080))`.

External effects (filesystem, YAML parsing, HuggingFace loading, CUDA
availability, the PORT environment variable) are modelled by an `Env`
record of outcome-valued fields; the module-level globals `model`,
`config`, `device` are an explicit `PState` threaded through the
functions.  `load_model` additionally returns the list of model-load
attempts it makes (which branch of the checkpoint dispatch ran) and an
`Except` value: `Except.error` models the Python exception that
`load_model` re-raises from its `except` block.
-/

/-- Parsed command-line flags (`--share`, `--checkpoint`, `--config`, `--fp16`),
mirroring the argparse declarations at lines 19-24 of `app_vc.py`. -/
structure Args where
  share : Bool
  checkpoint : String
  config : String
  fp16 : Bool
deriving DecidableEq

/-- Python truthiness of a string: non-empty strings are truthy. -/
def strTruthy (s : String) : Bool := !s.isEmpty

/-- The torch device chosen at line 35: `cuda` when available, else `cpu`. -/
inductive Device
  | cuda
  | cpu
deriving DecidableEq

/-- `device.type` as the string Python compares against `"cuda"` (line 77). -/
def Device.typeStr : Device → String
  | Device.cuda => "cuda"
  | Device.cpu => "cpu"

/-- `torch.device("cuda" if torch.cuda.is_available() else "cpu")` (line 35). -/
def selectDevice (cudaAvailable : Bool) : Device :=
  if cudaAvailable then Device.cuda else Device.cpu

/-- Opaque stand-in for a parsed-and-munched YAML configuration value. -/
structure Yaml where
  raw : String
deriving DecidableEq

/-- Outcome of the settings file at a given path: the file is missing
(`os.path.exists` is false, line 46), or opening/`yaml.safe_load`-ing/
munching it raises (a malformed file), or it parses to a value. -/
inductive FileOutcome
  | missing
  | parseError
  | parsed (v : Yaml)
deriving DecidableEq

/-- Outcome of `load_custom_model_from_hf` for a given name or path:
it raises, or returns `None`, a string, an object without `.to`, or a
proper model object (the cases distinguished by lines 67-82). -/
inductive HFOutcome
  | raises
  | returnsNone
  | returnsStr (s : String)
  | returnsNoTo
  | returnsModel
deriving DecidableEq

/-- The external world as `app_vc.py` observes it. -/
structure Env where
  cudaAvailable : Bool
  fileAt : String → FileOutcome
  hfLoad : String → HFOutcome
  portEnv : Option String

/-- The module-level `model` global: Python `None`, a string, an object
lacking `.to`, or a loaded model object carrying its device, whether
`.half()` was applied, and whether `.eval()` was applied. -/
inductive ModelHandle
  | absent
  | strVal (s : String)
  | noToObj
  | loadedObj (dev : Device) (halved : Bool) (evalMode : Bool)
deriving DecidableEq

/-- `model is None` (line 96 and line 68). -/
def ModelHandle.isAbsent : ModelHandle → Bool
  | ModelHandle.absent => true
  | _ => false

/-- Whether `.half()` was applied to the handle. -/
def ModelHandle.halvedFlag : ModelHandle → Bool
  | ModelHandle.loadedObj _ h _ => h
  | _ => false

/-- The module-level globals `model`, `config`, `device` (lines 27-29). -/
structure PState where
  model : ModelHandle
  config : Option Yaml
  device : Option Device
deriving DecidableEq

/-- Globals at process start: all `None`. -/
def initState : PState := ⟨ModelHandle.absent, none, none⟩

/-- Which branch of the model-load dispatch (lines 56-65) was attempted:
`load_custom_model_from_hf(args.checkpoint, ...)` or
`load_custom_model_from_hf("Plachta/Seed-VC", ...)`. -/
inductive LoadAttempt
  | localCheckpoint (path : String)
  | remoteDefault
deriving DecidableEq

/-- The exception re-raised by `load_model` (line 89), by cause. -/
inductive LoadError
  | configParseError
  | hfRaises
  | modelIsNone
  | modelIsStr (s : String)
  | noToMethod
deriving DecidableEq

/-- The config path resolved at lines 40-44: `args.config` when truthy,
else the default `"./configs/config.yaml"`. -/
def resolveConfigPath (args : Args) : String :=
  if strTruthy args.config then args.config else "./configs/config.yaml"

/-- Lines 55-82 of `load_model`: dispatch on `args.checkpoint` truthiness,
call `load_custom_model_from_hf`, validate the result, move it to the
device, optionally halve it, and put it in eval mode.  Returns the updated
globals, the single load attempt made, and the success value or the
exception. -/
def loadModelStage (args : Args) (env : Env) (dev : Device) (st : PState) :
    PState × List LoadAttempt × Except LoadError (ModelHandle × Option Yaml) :=
  let attempt :=
    if strTruthy args.checkpoint then LoadAttempt.localCheckpoint args.checkpoint
    else LoadAttempt.remoteDefault
  let name := if strTruthy args.checkpoint then args.checkpoint else "Plachta/Seed-VC"
  match env.hfLoad name with
  | HFOutcome.raises =>
      -- the call raises before assigning to `model`
      (st, [attempt], Except.error LoadError.hfRaises)
  | HFOutcome.returnsNone =>
      -- `model = None`, then `if model is None: raise ValueError(...)` (line 68)
      ({ st with model := ModelHandle.absent }, [attempt], Except.error LoadError.modelIsNone)
  | HFOutcome.returnsStr s =>
      -- `isinstance(model, str)` check raises (line 71)
      ({ st with model := ModelHandle.strVal s }, [attempt],
        Except.error (LoadError.modelIsStr s))
  | HFOutcome.returnsNoTo =>
      -- `hasattr(model, 'to')` is false, so line 82 raises
      ({ st with model := ModelHandle.noToObj }, [attempt], Except.error LoadError.noToMethod)
  | HFOutcome.returnsModel =>
      -- `model = model.to(device)`; `if args.fp16 and device.type == "cuda": model = model.half()`;
      -- `model.eval()` (lines 76-79)
      let halves := args.fp16 && (dev.typeStr == "cuda")
      let m := ModelHandle.loadedObj dev halves true
      let st2 := { st with model := m }
      (st2, [attempt], Except.ok (m, st2.config))

/-- `load_model` (lines 31-91): select the device, resolve and load the
config (a missing file is logged and `config` set to `None`; a malformed
file raises, and the `except` block re-raises), then run the model-load
stage. -/
def load_model (args : Args) (env : Env) (st0 : PState) :
    PState × List LoadAttempt × Except LoadError (ModelHandle × Option Yaml) :=
  let dev := selectDevice env.cudaAvailable
  let st1 := { st0 with device := some dev }
  match env.fileAt (resolveConfigPath args) with
  | FileOutcome.parseError =>
      -- `yaml.safe_load` (or munching) raises before `config` is reassigned;
      -- the exception is caught at line 84, logged, and re-raised (line 89)
      (st1, [], Except.error LoadError.configParseError)
  | FileOutcome.missing =>
      -- line 52-53: log and set `config = None`, then continue
      loadModelStage args env dev { st1 with config := none }
  | FileOutcome.parsed v =>
      loadModelStage args env dev { st1 with config := some v }

/-- `True` when `load_model` returns without raising. -/
def loadOk (args : Args) (env : Env) : Bool :=
  match (load_model args env initState).2.2 with
  | Except.ok _ => true
  | Except.error _ => false

/-- An audio value as the gradio widget delivers it: a filepath string
(the widget passes `None` when no file is supplied, modelled as
`Option Audio`). -/
abbrev Audio := String

/-- `voice_conversion(source_audio, target_voice, pitch_shift=0)`
(lines 93-104).  The function only reads the `model` global: if it is
`None` it returns `(None, "Model not loaded. ...")`; otherwise it returns
the source audio unchanged with the fixed placeholder status.  The body
cannot raise, and the surrounding `try/except` would catch any exception
anyway, so the embedding is a total function.  The returned `PState` is
the state of the globals after the call. -/
def voice_conversion (st : PState) (source_audio : Option Audio)
    (target_voice : String) (pitch_shift : Int) :
    PState × (Option Audio × String) :=
  if st.model.isAbsent then
    (st, (none, "Model not loaded. Please restart the application."))
  else
    (st, (source_audio, "Voice conversion not yet implemented"))

/-- Parse a digit run with Python's single-underscore-between-digits rule
(`int("1_0") = 10`, `int("1__0")` and `int("1_")` raise). -/
def pyDigits : Nat → List Char → Option Nat
  | acc, [] => some acc
  | acc, c :: cs =>
    if c.isDigit then pyDigits (acc * 10 + (c.toNat - 48)) cs
    else if c = '_' then
      match cs with
      | [] => none
      | d :: cs2 =>
        if d.isDigit then pyDigits (acc * 10 + (d.toNat - 48)) cs2 else none
    else none

/-- Strip whitespace from both ends of a character list, as Python's
`int` does to its string argument before parsing. -/
def pyStrip (cs : List Char) : List Char :=
  ((cs.dropWhile Char.isWhitespace).reverse.dropWhile Char.isWhitespace).reverse

/-- Core of Python `int(s)` after stripping: an optional sign followed by
digits (with single underscores between digits). -/
def pyIntOfChars : List Char → Option Int
  | [] => none
  | '+' :: rest =>
      match rest with
      | [] => none
      | d :: _ =>
          if d.isDigit then (pyDigits 0 rest).map Int.ofNat else none
  | '-' :: rest =>
      match rest with
      | [] => none
      | d :: _ =>
          if d.isDigit then (pyDigits 0 rest).map (fun n => -(Int.ofNat n)) else none
  | d :: rest =>
      if d.isDigit then (pyDigits 0 (d :: rest)).map Int.ofNat else none

/-- Python `int(s)` on a string: strip surrounding whitespace, accept an
optional sign followed by digits (with single underscores between digits);
`none` models the `ValueError` it raises on any other input. -/
def pyIntOfString (s : String) : Option Int :=
  pyIntOfChars (pyStrip s.toList)

/-- `port = int(os.environ.get("PORT", 8080))` (line 153): when `PORT` is
absent the default `8080` (already an int) is used; when present, `int`
either parses it or raises `ValueError` (modelled as `Except.error ()`). -/
def resolvePort (portEnv : Option String) : Except Unit Int :=
  match portEnv with
  | none => Except.ok 8080
  | some s =>
      match pyIntOfString s with
      | some n => Except.ok n
      | none => Except.error ()

/-- How the `__main__` block ends: the server is launched on a port (with
the share flag), or the process exits with a status code. -/
inductive MainOutcome
  | launched (port : Int) (share : Bool)
  | exited (code : Nat)
deriving DecidableEq

/-- Whether the outcome is a server launch. -/
def MainOutcome.isLaunched : MainOutcome → Bool
  | MainOutcome.launched _ _ => true
  | MainOutcome.exited _ => false

/-- The `__main__` block (lines 137-165): call `load_model()`, build the
demo, resolve the port, and `demo.launch(...)`.  Any exception inside the
`try` — a `load_model` re-raise or the `ValueError` from `int` on a
non-numeric `PORT` — is caught at line 161 and leads to `sys.exit(1)`.
Demo construction (`create_demo`) is pure UI wiring and is modelled as
always succeeding. -/
def mainRun (args : Args) (env : Env) : PState × MainOutcome :=
  let r := load_model args env initState
  match r.2.2 with
  | Except.error _ => (r.1, MainOutcome.exited 1)
  | Except.ok _ =>
      match resolvePort env.portEnv with
      | Except.ok p => (r.1, MainOutcome.launched p args.share)
      | Except.error _ => (r.1, MainOutcome.exited 1)

/-! Concrete flag vectors, environments and states used by witnesses and
counterexamples. -/

/-- The default flag vector: `--share` false, empty checkpoint and config,
`--fp16` true. -/
def argsDefault : Args := ⟨false, "", "", true⟩

/-- Flags with a non-empty `--config` path. -/
def argsCfg : Args := ⟨false, "", "bad.yaml", true⟩

/-- CPU-only environment: no config file anywhere, HF loading succeeds,
`PORT` unset. -/
def envBenign : Env :=
  { cudaAvailable := false
    fileAt := fun _ => FileOutcome.missing
    hfLoad := fun _ => HFOutcome.returnsModel
    portEnv := none }

/-- Environment in which `load_custom_model_from_hf` raises. -/
def envLoadRaises : Env :=
  { cudaAvailable := false
    fileAt := fun _ => FileOutcome.missing
    hfLoad := fun _ => HFOutcome.raises
    portEnv := none }

/-- Environment in which every settings file exists but is malformed. -/
def envBadConfig : Env :=
  { cudaAvailable := false
    fileAt := fun _ => FileOutcome.parseError
    hfLoad := fun _ => HFOutcome.returnsModel
    portEnv := none }

/-- Benign environment with `PORT=9090`. -/
def envPort9090 : Env :=
  { cudaAvailable := false
    fileAt := fun _ => FileOutcome.missing
    hfLoad := fun _ => HFOutcome.returnsModel
    portEnv := some "9090" }

/-- Benign environment with the non-numeric `PORT=abc`. -/
def envPortBad : Env :=
  { cudaAvailable := false
    fileAt := fun _ => FileOutcome.missing
    hfLoad := fun _ => HFOutcome.returnsModel
    portEnv := some "abc" }

/-- A state whose model handle is present (a loaded CPU model). -/
def stLoaded : PState :=
  ⟨ModelHandle.loadedObj Device.cpu false true, none, some Device.cpu⟩

/-! Helper lemmas about the model-load stage, shared by several claims. -/

/-- The model-load stage makes exactly one `load_custom_model_from_hf`
attempt, on the branch selected by `args.checkpoint` truthiness. -/
theorem loadModelStage_trace (args : Args) (env : Env) (dev : Device) (st : PState) :
    (loadModelStage args env dev st).2.1 =
      [if strTruthy args.checkpoint then LoadAttempt.localCheckpoint args.checkpoint
       else LoadAttempt.remoteDefault] := by
  unfold loadModelStage
  cases hfl : env.hfLoad (if strTruthy args.checkpoint then args.checkpoint
      else "Plachta/Seed-VC") <;> simp [hfl]

/-- The model-load stage never assigns to the `config` global. -/
theorem loadModelStage_config (args : Args) (env : Env) (dev : Device) (st : PState) :
    (loadModelStage args env dev st).1.config = st.config := by
  unfold loadModelStage
  cases hfl : env.hfLoad (if strTruthy args.checkpoint then args.checkpoint
      else "Plachta/Seed-VC") <;> simp [hfl]

/-- On the CPU device the `model.half()` guard at line 77 is false, so the
model handle left in the globals is never marked halved (given that the
handle held before the stage was not halved either, which covers the
branch where the loading call raises and leaves `model` untouched). -/
theorem loadModelStage_unhalved_cpu (args : Args) (env : Env) (st : PState)
    (h : st.model.halvedFlag = false) :
    ModelHandle.halvedFlag (loadModelStage args env Device.cpu st).1.model = false := by
  unfold loadModelStage
  unfold ModelHandle.halvedFlag at h ⊢
  cases hfl : env.hfLoad (if strTruthy args.checkpoint then args.checkpoint
      else "Plachta/Seed-VC") <;>
    simp [hfl, ModelHandle.halvedFlag, Device.typeStr, h]

/-- Starting from the initial globals on a machine without CUDA,
`load_model` never produces a half-precision model handle, whatever the
flags and however the config/model loading turns out. -/
theorem load_model_unhalved_cpu (args : Args) (env : Env)
    (h2 : env.cudaAvailable = false) :
    ModelHandle.halvedFlag (load_model args env initState).1.model = false := by
  unfold load_model
  rw [h2]
  cases hf : env.fileAt (resolveConfigPath args) with
  | parseError => simp [hf, initState, ModelHandle.halvedFlag]
  | missing =>
      simp only [hf, selectDevice, if_false, Bool.false_eq_true]
      exact loadModelStage_unhalved_cpu args env _ rfl
  | parsed v =>
      simp only [hf, selectDevice, if_false, Bool.false_eq_true]
      exact loadModelStage_unhalved_cpu args env _ rfl

/-! ## Claims -/

/-- Claim C1 (corrected), counterexample: with default flags and an
environment where `load_custom_model_from_hf` raises, bootstrap fails
(`loadOk` is false) and the `__main__` block does NOT launch the server:
it catches the re-raised exception and calls `sys.exit(1)`.  This refutes
the claim that after a bootstrap failure "the HTTP server is launched
rather than the process exiting". -/
theorem C1_counterexample :
    loadOk argsDefault envLoadRaises = false ∧
    (mainRun argsDefault envLoadRaises).2 = MainOutcome.exited 1 ∧
    MainOutcome.isLaunched (mainRun argsDefault envLoadRaises).2 = false :=
  ⟨rfl, rfl, rfl⟩

/-- Claim C1 (corrected, amended): whenever `load_model` fails, the
exception propagates to the `__main__` handler, which logs it and exits
the process with status 1; the HTTP server is not launched. -/
theorem C1_bootstrap_failure_exits (args : Args) (env : Env)
    (h : loadOk args env = false) :
    (mainRun args env).2 = MainOutcome.exited 1 := by
  unfold loadOk at h
  unfold mainRun
  cases hres : (load_model args env initState).2.2 with
  | error e => simp [hres]
  | ok v => rw [hres] at h; simp at h

/-- Witness for C1: a concrete failing bootstrap reaches `exit 1`. -/
theorem C1_witness :
    loadOk argsDefault envLoadRaises = false ∧
    (mainRun argsDefault envLoadRaises).2 = MainOutcome.exited 1 :=
  ⟨rfl, C1_bootstrap_failure_exits argsDefault envLoadRaises rfl⟩

/-- Claim C2 (confirmed): with the model handle present and a source
audio supplied, `voice_conversion` returns the source audio unmodified
together with the fixed status "Voice conversion not yet implemented",
and (being a total function, with the `try/except` at lines 95-104
catching anything anyway) never raises to the caller. -/
theorem C2_placeholder_outcome (st : PState) (a : Audio)
    (target_voice : String) (pitch_shift : Int)
    (h : st.model.isAbsent = false) :
    voice_conversion st (some a) target_voice pitch_shift =
      (st, (some a, "Voice conversion not yet implemented")) := by
  unfold voice_conversion
  rw [h]
  simp

/-- Witness for C2 at a loaded state and a concrete file. -/
theorem C2_witness :
    stLoaded.model.isAbsent = false ∧
    voice_conversion stLoaded (some "src.wav") "speaker1" 0 =
      (stLoaded, (some "src.wav", "Voice conversion not yet implemented")) :=
  ⟨rfl, C2_placeholder_outcome stLoaded "src.wav" "speaker1" 0 rfl⟩

/-- Claim C3 (confirmed): whenever the model handle is absent,
`voice_conversion` returns `None` for the audio together with the
(non-empty) status "Model not loaded. Please restart the application.",
for every source audio, target voice, and pitch shift. -/
theorem C3_model_absent (st : PState) (source_audio : Option Audio)
    (target_voice : String) (pitch_shift : Int)
    (h : st.model = ModelHandle.absent) :
    (voice_conversion st source_audio target_voice pitch_shift).2 =
      (none, "Model not loaded. Please restart the application.") ∧
    "Model not loaded. Please restart the application." ≠ "" := by
  refine ⟨?_, by decide⟩
  unfold voice_conversion
  rw [h]
  simp [ModelHandle.isAbsent]

/-- Witness for C3 at the initial state. -/
theorem C3_witness :
    initState.model = ModelHandle.absent ∧
    (voice_conversion initState (some "src.wav") "speaker1" 3).2 =
      (none, "Model not loaded. Please restart the application.") :=
  ⟨rfl, (C3_model_absent initState (some "src.wav") "speaker1" 3 rfl).1⟩

/-- Claim C4 (corrected), counterexample: with the model present and the
source audio absent, `voice_conversion` returns the status
"Voice conversion not yet implemented" — exactly the status it returns on
the success path when a source IS supplied (second conjunct).  The status
therefore reports nothing about the missing input: no source-presence
check exists in the code, refuting "a descriptive status string reporting
the missing input". -/
theorem C4_counterexample :
    (voice_conversion stLoaded none "speaker1" 0).2 =
      (none, "Voice conversion not yet implemented") ∧
    (voice_conversion stLoaded (some "src.wav") "speaker1" 0).2.2 =
      "Voice conversion not yet implemented" :=
  ⟨rfl, rfl⟩

/-- Claim C4 (corrected, amended): with the model handle present and the
source audio absent, `voice_conversion` returns an absent audio result
(the absent source echoed back) paired with the generic placeholder
status "Voice conversion not yet implemented"; it performs no
source-presence check and emits no missing-input message. -/
theorem C4_source_absent_placeholder (st : PState)
    (target_voice : String) (pitch_shift : Int)
    (h : st.model.isAbsent = false) :
    voice_conversion st none target_voice pitch_shift =
      (st, (none, "Voice conversion not yet implemented")) := by
  unfold voice_conversion
  rw [h]
  simp

/-- Witness for C4's amended theorem at a loaded state. -/
theorem C4_witness :
    stLoaded.model.isAbsent = false ∧
    voice_conversion stLoaded none "speaker1" 0 =
      (stLoaded, (none, "Voice conversion not yet implemented")) :=
  ⟨rfl, C4_source_absent_placeholder stLoaded "speaker1" 0 rfl⟩

/-- Claim C5 (corrected), counterexample: with both `--checkpoint` and
`--config` empty but the default config file `./configs/config.yaml`
present and malformed, the YAML parse raises before the model-load stage,
so bootstrap makes ZERO model-load attempts — the remote-default path is
not attempted "exactly once". -/
theorem C5_counterexample :
    argsDefault.checkpoint = "" ∧ argsDefault.config = "" ∧
    (load_model argsDefault envBadConfig initState).2.1 = [] :=
  ⟨rfl, rfl, rfl⟩

/-- Claim C5 (corrected, amended): with both `--checkpoint` and
`--config` empty, whenever the config-loading stage does not raise (the
default config file is absent or parses), bootstrap's model-load trace is
exactly one attempt at the remote default "Plachta/Seed-VC" — so the
remote-default path is attempted exactly once and a local checkpoint path
never; when the config stage raises, no model load is attempted at all. -/
theorem C5_remote_default_once (args : Args) (env : Env)
    (h1 : args.checkpoint = "") (h2 : args.config = "")
    (h3 : env.fileAt "./configs/config.yaml" ≠ FileOutcome.parseError) :
    (load_model args env initState).2.1 = [LoadAttempt.remoteDefault] := by
  have hpath : resolveConfigPath args = "./configs/config.yaml" := by
    unfold resolveConfigPath
    rw [h2]
    rfl
  cases hf : env.fileAt "./configs/config.yaml" with
  | parseError => exact absurd hf h3
  | missing =>
      simp only [load_model, hpath, hf]
      rw [loadModelStage_trace, h1]
      rfl
  | parsed v =>
      simp only [load_model, hpath, hf]
      rw [loadModelStage_trace, h1]
      rfl

/-- Witness for C5: the benign environment (no config file) with default
flags yields exactly the one remote-default attempt. -/
theorem C5_witness :
    argsDefault.checkpoint = "" ∧ argsDefault.config = "" ∧
    envBenign.fileAt "./configs/config.yaml" ≠ FileOutcome.parseError ∧
    (load_model argsDefault envBenign initState).2.1 = [LoadAttempt.remoteDefault] :=
  ⟨rfl, rfl, by decide,
    C5_remote_default_once argsDefault envBenign rfl rfl (by decide)⟩

/-- Claim C6 (corrected), counterexample: with a successful bootstrap and
`PORT=abc`, `int("abc")` raises `ValueError`, the `__main__` handler
catches it, and the process exits with status 1 — it does NOT listen on
8080 as the claim requires for the non-numeric case. -/
theorem C6_counterexample :
    loadOk argsDefault envPortBad = true ∧
    envPortBad.portEnv = some "abc" ∧
    (mainRun argsDefault envPortBad).2 = MainOutcome.exited 1 ∧
    MainOutcome.isLaunched (mainRun argsDefault envPortBad).2 = false :=
  ⟨rfl, rfl, rfl, rfl⟩

/-- Claim C6 (corrected, amended): after a successful bootstrap the server
listens on the numeric value of `PORT` when `PORT` is present and parses
as a Python int, and on 8080 when `PORT` is absent; when `PORT` is present
but non-numeric, `int` raises and the process exits with status 1 instead
of listening. -/
theorem C6_port_resolution (args : Args) (env : Env)
    (h : loadOk args env = true) :
    (mainRun args env).2 =
      (match resolvePort env.portEnv with
       | Except.ok p => MainOutcome.launched p args.share
       | Except.error _ => MainOutcome.exited 1) := by
  unfold loadOk at h
  unfold mainRun
  cases hres : (load_model args env initState).2.2 with
  | error e => rw [hres] at h; simp at h
  | ok v =>
      simp only [hres]
      cases resolvePort env.portEnv <;> simp

/-- Witness for C6: benign environment with `PORT=9090` launches on 9090. -/
theorem C6_witness :
    loadOk argsDefault envPort9090 = true ∧
    (mainRun argsDefault envPort9090).2 = MainOutcome.launched 9090 false :=
  ⟨rfl, (C6_port_resolution argsDefault envPort9090 rfl).trans rfl⟩

/-- Claim C7 (corrected), counterexample: with `--config bad.yaml` and an
environment in which that settings file exists but is malformed,
`load_model` does not proceed with an absent settings object — the parse
exception is logged and re-raised (`Except.error configParseError`) and
the load aborts before any model-load attempt. -/
theorem C7_counterexample :
    (load_model argsCfg envBadConfig initState).2.2 =
      Except.error LoadError.configParseError ∧
    (load_model argsCfg envBadConfig initState).2.1 = [] :=
  ⟨rfl, rfl⟩

/-- Claim C7 (corrected, amended): a MISSING settings file at the resolved
config path is non-fatal — bootstrap logs the condition, sets the settings
object to absent (`config = None`), and proceeds to the model-load stage
(exactly one load attempt is made); a MALFORMED settings file, by
contrast, raises and aborts the load (see the counterexample). -/
theorem C7_missing_config_nonfatal (args : Args) (env : Env)
    (h : env.fileAt (resolveConfigPath args) = FileOutcome.missing) :
    (load_model args env initState).1.config = none ∧
    (load_model args env initState).2.1 =
      [if strTruthy args.checkpoint then LoadAttempt.localCheckpoint args.checkpoint
       else LoadAttempt.remoteDefault] := by
  constructor
  · simp only [load_model, h]
    rw [loadModelStage_config]
  · simp only [load_model, h]
    rw [loadModelStage_trace]

/-- Witness for C7: default flags in the benign environment (config file
missing) leave `config` absent and still make the remote-default load
attempt. -/
theorem C7_witness :
    envBenign.fileAt (resolveConfigPath argsDefault) = FileOutcome.missing ∧
    (load_model argsDefault envBenign initState).1.config = none ∧
    (load_model argsDefault envBenign initState).2.1 = [LoadAttempt.remoteDefault] := by
  refine ⟨rfl, ?_⟩
  have h := C7_missing_config_nonfatal argsDefault envBenign rfl
  exact ⟨h.1, h.2.trans rfl⟩

/-- Claim C8 (confirmed): `voice_conversion` mutates no process-wide
state — it contains no `global` statement and no assignment to `model`,
`config`, or `device`, so the globals after the call equal the globals
before it, for every input. -/
theorem C8_no_side_effects (st : PState) (source_audio : Option Audio)
    (target_voice : String) (pitch_shift : Int) :
    (voice_conversion st source_audio target_voice pitch_shift).1 = st := by
  unfold voice_conversion
  cases st.model.isAbsent <;> simp

/-- Claim C9 (confirmed): `voice_conversion` never reads `target_voice`
or `pitch_shift`, so two calls in the same state on the same source audio
that differ only in those arguments return identical (audio, status)
pairs. -/
theorem C9_independent_of_target_and_pitch (st : PState)
    (source_audio : Option Audio) (tv1 tv2 : String) (p1 p2 : Int) :
    (voice_conversion st source_audio tv1 p1).2 =
      (voice_conversion st source_audio tv2 p2).2 := by
  unfold voice_conversion
  cases st.model.isAbsent <;> simp

/-- Claim C10 (confirmed): `model.half()` is guarded by
`args.fp16 and device.type == "cuda"` (line 77), so when `load_model`
succeeds with `--fp16` set but CUDA unavailable (device is `cpu`), the
resulting model handle is never cast to half precision. -/
theorem C10_no_half_on_cpu (args : Args) (env : Env)
    (h1 : args.fp16 = true) (h2 : env.cudaAvailable = false)
    (h3 : loadOk args env = true) :
    ModelHandle.halvedFlag (load_model args env initState).1.model = false :=
  load_model_unhalved_cpu args env h2

/-- Witness for C10: default flags (`--fp16` true) on the benign CPU-only
environment load successfully and leave the model unhalved. -/
theorem C10_witness :
    argsDefault.fp16 = true ∧ envBenign.cudaAvailable = false ∧
    loadOk argsDefault envBenign = true ∧
    ModelHandle.halvedFlag (load_model argsDefault envBenign initState).1.model = false :=
  ⟨rfl, rfl, rfl, C10_no_half_on_cpu argsDefault envBenign rfl rfl rfl⟩
